import Mathlib

/-!
Verification of the Google Compute Engine backend of k8s-snapshots
(`k8s_snapshots/backends/google.py`): the two-phase snapshot status poll
(`get_snapshot_status`), configuration validation (`validate_config`), disk
identifier resolution (`get_disk_identifier`) and the label filter
expression builder (`snapshot_list_filter_expr`).

Remote state is modelled by a `Cloud` environment giving each resource's
status string, and every remote read a poll performs is recorded, in order,
in a trace of `RemoteRead` events. Python runtime failures (raised
exceptions, the unbound local of `validate_config`, the `IndexError` of
`snapshot_list_filter_expr`) are modelled with `Except` and `Option`.
-/

namespace KSnap

/-- Modelled from the spec: the `SnapshotStatus` enum imported by the backend
from `backends.abstract` (that module is outside this backend file); the
spec lists the members PENDING, COMPLETE, FAILED. The backend itself only
ever returns `PENDING` or `COMPLETE` and signals failure by raising. -/
inductive SnapshotStatus where
  | PENDING
  | COMPLETE
  | FAILED
  deriving DecidableEq

/-- The creation handle built by `create_snapshot` (google.py lines 181-185):
the dict `{snapshot_name, zone, operation_name}`. -/
structure NewSnapshotIdentifier where
  snapshot_name : String
  zone : String
  operation_name : String

/-- The remote state read by `get_snapshot_status`: the status of each zone
operation, addressed by zone and operation name (`zoneOperations().get`),
and of each snapshot, addressed by name (`snapshots().get`). -/
structure Cloud where
  operationStatus : String → String → String
  snapshotStatus : String → String

/-- One remote read performed during a poll: an operation fetch
(`zoneOperations().get`, google.py line 207) or a snapshot fetch
(`snapshots().get`, google.py line 219). -/
inductive RemoteRead where
  | opRead (zone operationName : String)
  | snapRead (snapshot : String)
  deriving DecidableEq

/-- Modelled from the spec: `SnapshotCreateError` (from `k8s_snapshots.errors`,
outside this backend file) carries the provider status string it is raised
with (google.py line 228 raises `SnapshotCreateError(status)`). -/
structure SnapshotCreateError where
  status : String
  deriving DecidableEq

/-- `get_snapshot_status` (google.py lines 188-234). Fetches the operation;
when its status is not "DONE" returns PENDING at once; otherwise fetches the
snapshot and maps its status: "FAILED" raises `SnapshotCreateError(status)`,
anything other than "READY" is PENDING, "READY" is COMPLETE. The value is
the returned status (or the raised error) paired with the trace of remote
reads performed, in order. -/
def get_snapshot_status (cloud : Cloud) (si : NewSnapshotIdentifier) :
    Except SnapshotCreateError SnapshotStatus × List RemoteRead :=
  let opStatus := cloud.operationStatus si.zone si.operation_name
  if ¬ opStatus = "DONE" then
    (Except.ok SnapshotStatus.PENDING, [RemoteRead.opRead si.zone si.operation_name])
  else
    let status := cloud.snapshotStatus si.snapshot_name
    let reads := [RemoteRead.opRead si.zone si.operation_name,
                  RemoteRead.snapRead si.snapshot_name]
    if status = "FAILED" then
      (Except.error ⟨status⟩, reads)
    else if ¬ status = "READY" then
      (Except.ok SnapshotStatus.PENDING, reads)
    else
      (Except.ok SnapshotStatus.COMPLETE, reads)

/-- The snapshot-only tail of the poll (google.py lines 224-234): how the
result is determined from the snapshot status alone once the operation is
done. Used to state that, past the operation check, the outcome derives
solely from the snapshot resource. -/
def snapshot_only_status (status : String) : Except SnapshotCreateError SnapshotStatus :=
  if status = "FAILED" then
    Except.error ⟨status⟩
  else if ¬ status = "READY" then
    Except.ok SnapshotStatus.PENDING
  else
    Except.ok SnapshotStatus.COMPLETE

/-- C1: when the fetched operation's status is not "DONE", the poll returns
PENDING and its trace is exactly the one operation fetch — no snapshot
resource is read. -/
theorem get_snapshot_status_not_done (cloud : Cloud) (si : NewSnapshotIdentifier)
    (h : ¬ cloud.operationStatus si.zone si.operation_name = "DONE") :
    (get_snapshot_status cloud si).1 = Except.ok SnapshotStatus.PENDING ∧
    (get_snapshot_status cloud si).2 = [RemoteRead.opRead si.zone si.operation_name] ∧
    ∀ s, ¬ RemoteRead.snapRead s ∈ (get_snapshot_status cloud si).2 := by
  simp [get_snapshot_status, h]

/-- Witness for C1 at a concrete pending operation. -/
theorem get_snapshot_status_not_done_witness :
    (get_snapshot_status ⟨fun _ _ => "RUNNING", fun _ => "READY"⟩
        ⟨"snap-1", "zone-a", "op-1"⟩).1 = Except.ok SnapshotStatus.PENDING ∧
    (get_snapshot_status ⟨fun _ _ => "RUNNING", fun _ => "READY"⟩
        ⟨"snap-1", "zone-a", "op-1"⟩).2 = [RemoteRead.opRead "zone-a" "op-1"] ∧
    ∀ s, ¬ RemoteRead.snapRead s ∈ (get_snapshot_status
        ⟨fun _ _ => "RUNNING", fun _ => "READY"⟩ ⟨"snap-1", "zone-a", "op-1"⟩).2 :=
  get_snapshot_status_not_done _ _ (by decide)

/-- C2: the poll returns COMPLETE iff the operation status is "DONE" and the
snapshot status is "READY"; when the operation is done and the snapshot
status is neither "FAILED" nor "READY", the poll returns PENDING. -/
theorem get_snapshot_status_complete_iff (cloud : Cloud) (si : NewSnapshotIdentifier) :
    ((get_snapshot_status cloud si).1 = Except.ok SnapshotStatus.COMPLETE ↔
      cloud.operationStatus si.zone si.operation_name = "DONE" ∧
        cloud.snapshotStatus si.snapshot_name = "READY") ∧
    (cloud.operationStatus si.zone si.operation_name = "DONE" →
      ¬ cloud.snapshotStatus si.snapshot_name = "FAILED" →
      ¬ cloud.snapshotStatus si.snapshot_name = "READY" →
      (get_snapshot_status cloud si).1 = Except.ok SnapshotStatus.PENDING) := by
  by_cases h1 : cloud.operationStatus si.zone si.operation_name = "DONE"
  · by_cases h2 : cloud.snapshotStatus si.snapshot_name = "FAILED"
    · simp [get_snapshot_status, h1, h2]
    · by_cases h3 : cloud.snapshotStatus si.snapshot_name = "READY"
      · simp [get_snapshot_status, h1, h2, h3]
      · simp [get_snapshot_status, h1, h2, h3]
  · simp [get_snapshot_status, h1]

/-- C3: the poll raises `SnapshotCreateError e` iff the operation status is
"DONE", the snapshot status is "FAILED", and `e` carries exactly the
snapshot's literal provider status string; in every other case no
creation-failure error is raised. -/
theorem get_snapshot_status_error_iff (cloud : Cloud) (si : NewSnapshotIdentifier)
    (e : SnapshotCreateError) :
    (get_snapshot_status cloud si).1 = Except.error e ↔
      cloud.operationStatus si.zone si.operation_name = "DONE" ∧
        cloud.snapshotStatus si.snapshot_name = "FAILED" ∧
        e = ⟨cloud.snapshotStatus si.snapshot_name⟩ := by
  by_cases h1 : cloud.operationStatus si.zone si.operation_name = "DONE"
  · by_cases h2 : cloud.snapshotStatus si.snapshot_name = "FAILED"
    · simp [get_snapshot_status, h1, h2, SnapshotCreateError.mk.injEq, eq_comm]
    · by_cases h3 : cloud.snapshotStatus si.snapshot_name = "READY"
      · simp [get_snapshot_status, h1, h2, h3]
      · simp [get_snapshot_status, h1, h2, h3]
  · simp [get_snapshot_status, h1]

/-- C4 as stated is false: formalising "once the operation has reported
completion, a subsequent poll of the same handle never reads the operation
resource again" over any sequence of polls (each poll is one
`get_snapshot_status` call against the cloud state seen at that moment), the
second poll of a DONE operation still begins with an operation fetch, since
the source re-runs `zoneOperations().get` unconditionally on every call. -/
theorem operation_reread_after_done :
    ¬ (∀ (clouds : List Cloud) (si : NewSnapshotIdentifier)
        (i j : Nat) (hi : i < clouds.length) (hj : j < clouds.length),
        i < j →
        (clouds.get ⟨i, hi⟩).operationStatus si.zone si.operation_name = "DONE" →
        ∀ z o, ¬ RemoteRead.opRead z o ∈ (get_snapshot_status (clouds.get ⟨j, hj⟩) si).2) := by
  intro h
  exact h [⟨fun _ _ => "DONE", fun _ => "UPLOADING"⟩,
           ⟨fun _ _ => "DONE", fun _ => "UPLOADING"⟩]
    ⟨"snap-1", "zone-a", "op-1"⟩ 0 1 (by decide) (by decide) (by decide) rfl
    "zone-a" "op-1" (by decide)

/-- C4 (amended): within a single poll in which the operation reports "DONE",
the outcome derives solely from the snapshot resource
(`snapshot_only_status` of the snapshot's status), and that poll's trace is
exactly one operation fetch followed by one snapshot fetch; each subsequent
poll call, however, reads the operation resource again before anything
else. -/
theorem get_snapshot_status_done_uses_snapshot_only (cloud : Cloud)
    (si : NewSnapshotIdentifier)
    (h : cloud.operationStatus si.zone si.operation_name = "DONE") :
    (get_snapshot_status cloud si).1 =
      snapshot_only_status (cloud.snapshotStatus si.snapshot_name) ∧
    (get_snapshot_status cloud si).2 =
      [RemoteRead.opRead si.zone si.operation_name,
       RemoteRead.snapRead si.snapshot_name] := by
  by_cases h2 : cloud.snapshotStatus si.snapshot_name = "FAILED"
  · simp [get_snapshot_status, snapshot_only_status, h, h2]
  · by_cases h3 : cloud.snapshotStatus si.snapshot_name = "READY"
    · simp [get_snapshot_status, snapshot_only_status, h, h2, h3]
    · simp [get_snapshot_status, snapshot_only_status, h, h2, h3]

/-- Witness for the amended C4 at a concrete done operation. -/
theorem get_snapshot_status_done_uses_snapshot_only_witness :
    (get_snapshot_status ⟨fun _ _ => "DONE", fun _ => "UPLOADING"⟩
        ⟨"snap-1", "zone-a", "op-1"⟩).1 = snapshot_only_status "UPLOADING" ∧
    (get_snapshot_status ⟨fun _ _ => "DONE", fun _ => "UPLOADING"⟩
        ⟨"snap-1", "zone-a", "op-1"⟩).2 =
      [RemoteRead.opRead "zone-a" "op-1", RemoteRead.snapRead "snap-1"] :=
  get_snapshot_status_done_uses_snapshot_only _ _ rfl

/-- Character class `[a-z]` of the source regexes, by code point. -/
def isLowerAlpha (c : Char) : Bool := decide (97 ≤ c.toNat) && decide (c.toNat ≤ 122)

/-- Character class `[0-9]`. -/
def isDigitChar (c : Char) : Bool := decide (48 ≤ c.toNat) && decide (c.toNat ≤ 57)

/-- Character class `[a-z0-9]`. -/
def isLowerAlnum (c : Char) : Bool := isLowerAlpha c || isDigitChar c

/-- Character class `[-a-z0-9]` (45 is the dash). -/
def isNameChar (c : Char) : Bool := decide (c.toNat = 45) || isLowerAlnum c

/-- Character class `[A-Z]`, used to state the spec's sentence about rendered
outputs that start with an uppercase letter. -/
def isUpperAlpha (c : Char) : Bool := decide (65 ≤ c.toNat) && decide (c.toNat ≤ 90)

/-- `GOOGLE_SNAPSHOT_NAME_REGEX` (google.py line 20),
`^(?:[a-z](?:[-a-z0-9]{0,61}[a-z0-9])?)$`, on a list of characters: a
lowercase letter, optionally followed by 1 to 62 characters drawn from
`[-a-z0-9]` whose last is in `[a-z0-9]`. -/
def nameRegexList : List Char → Bool
  | [] => false
  | c :: rest =>
    isLowerAlpha c &&
      (rest.isEmpty ||
        (decide (rest.length ≤ 62) && rest.all isNameChar &&
          (match rest.getLast? with
           | some d => isLowerAlnum d
           | none => false)))

/-- `re.match(GOOGLE_SNAPSHOT_NAME_REGEX, s)` as a Boolean on strings. -/
def google_snapshot_name_regex_match (s : String) : Bool :=
  nameRegexList s.data

/-- ASCII reading of the `\w` class (Python matches it Unicode-wide; every
string this development evaluates is ASCII): letters, digits, underscore
(code point 95). -/
def isWordChar (c : Char) : Bool :=
  isLowerAlpha c || isUpperAlpha c || isDigitChar c || decide (c.toNat = 95)

/-- `GOOGLE_LABEL_REGEX` (google.py line 33): `^(?:[-\w]{0,63})$`. -/
def google_label_regex_match (s : String) : Bool :=
  decide (s.length ≤ 63) && s.data.all (fun c => decide (c.toNat = 45) || isWordChar c)

/-- Python `str.islower()` over ASCII: at least one cased character, and no
uppercase one. -/
def py_islower (s : String) : Bool :=
  (s.data.any fun c => isLowerAlpha c || isUpperAlpha c) &&
    (s.data.all fun c => ! isUpperAlpha c)

/-- Python `value[0].isalpha()` as the source reaches it: `value.islower()`
is checked first and is false for the empty string, so the index is only
evaluated on nonempty strings; on the empty string this is false. -/
def first_isalpha (s : String) : Bool :=
  match s.data with
  | [] => false
  | c :: _ => isLowerAlpha c || isUpperAlpha c

/-- The label-validity expression of google.py lines 65-68, with Python's
operator precedence made explicit:
`(re_match and value.islower() and value[0].isalpha()) or (not
is_glabel_key)`. -/
def is_glabel_valid (value : String) (isGlabelKey : Bool) : Bool :=
  (google_label_regex_match value && py_islower value && first_isalpha value) ||
    ! isGlabelKey

/-- The observable outcome of `validate_config` (google.py lines 36-86):
which configuration keys were reported invalid (one `_logger.error` call
each), and what `return is_valid` yields — `none` models the
`UnboundLocalError` raised when no failing branch ever assigned
`is_valid`. -/
structure ValidationOutcome where
  violations : List String
  result : Option Bool

/-- `validate_config` (google.py lines 36-86). The rendered timestamp
`pendulum.now(...).format(config[...])` is abstracted as the input
`test_datetime`; `author_label` and `author_label_key` hold the
configuration values of `snapshot_author_label` (a Google label key) and
`snapshot_author_label_key` (a Google label value). The synthesized name
`dummy-snapshot-<test_datetime>` is checked against the name regex, then
the loop checks `is_glabel_valid` for each of the two label fields; every
failing check reports its key and sets `is_valid = False`. -/
def validate_config (test_datetime author_label author_label_key : String) :
    ValidationOutcome :=
  let test_snapshot_name := "dummy-snapshot-" ++ test_datetime
  let name_violations :=
    if google_snapshot_name_regex_match test_snapshot_name then []
    else ["snapshot_datetime_format"]
  let label_violations :=
    (if is_glabel_valid author_label true then [] else ["snapshot_author_label"]) ++
      (if is_glabel_valid author_label_key false then []
       else ["snapshot_author_label_key"])
  let violations := name_violations ++ label_violations
  { violations := violations
    result := if violations.isEmpty then none else some false }

/-- For a value-typed field the trailing `or not is_glabel_key` of the
source's expression is true, so the whole expression is. -/
theorem is_glabel_valid_value (value : String) : is_glabel_valid value false = true := by
  simp [is_glabel_valid]

/-- C5: on a fully valid configuration `validate_config` does not return a
boolean verdict: `is_valid` is never assigned on the all-pass path, so the
final `return is_valid` raises `UnboundLocalError` (modelled as
`result = none`), evaluated here at a configuration every rule accepts. -/
theorem validate_config_crashes_on_valid_config :
    (validate_config "2026-10-12" "k8s-snapshots" "managed-by").violations = [] ∧
    (validate_config "2026-10-12" "k8s-snapshots" "managed-by").result = none := by
  decide

/-- C6: the value-typed field `snapshot_author_label_key` is never reported
as a violation, whatever its value, because `is_glabel_valid` ends in
`or not is_glabel_key`; yet the label regex does reject values such as
`bad!value`, which the claim says must be reported. -/
theorem validate_config_never_reports_label_value :
    (∀ td a v : String,
      ((validate_config td a v).violations.contains "snapshot_author_label_key") = false) ∧
    google_label_regex_match "bad!value" = false := by
  refine ⟨?_, by decide⟩
  intro td a v
  by_cases h1 : google_snapshot_name_regex_match ("dummy-snapshot-" ++ td)
  · by_cases h2 : is_glabel_valid a true
    · simp [validate_config, is_glabel_valid_value, h1, h2]
    · simp [validate_config, is_glabel_valid_value, h1, h2]
  · by_cases h2 : is_glabel_valid a true
    · simp [validate_config, is_glabel_valid_value, h1, h2]
    · simp [validate_config, is_glabel_valid_value, h1, h2]

/-- The snapshot-name rule as the spec words it: `^[a-z][-a-z0-9]{0,61}$`
(1 to 62 characters, a lowercase letter first, then `[-a-z0-9]`). Stated
from the spec, to compare with the source's
`google_snapshot_name_regex_match`. -/
def spec_name_regex_match (s : String) : Bool :=
  match s.data with
  | [] => false
  | c :: rest => isLowerAlpha c && decide (rest.length ≤ 61) && rest.all isNameChar

/-- C7 is false as stated: at the rendered timestamp `2026-` the synthesized
name `dummy-snapshot-2026-` matches the spec's regex
`^[a-z][-a-z0-9]{0,61}$`, yet the source's check — whose regex forbids a
trailing dash — reports a `snapshot_datetime_format` violation. -/
theorem name_check_spec_regex_disagree :
    ¬ (((validate_config "2026-" "backup" "managed-by").violations.contains
          "snapshot_datetime_format") = true ↔
        spec_name_regex_match ("dummy-snapshot-" ++ "2026-") = false) := by
  decide

/-- A character of `[A-Z]` is outside `[-a-z0-9]`. -/
theorem isNameChar_eq_false_of_upper (c : Char) (h : isUpperAlpha c = true) :
    isNameChar c = false := by
  simp [isUpperAlpha] at h
  simp [isNameChar, isLowerAlnum, isLowerAlpha, isDigitChar]
  omega

/-- C7 (amended): validation of the synthesized snapshot name fails exactly
when `dummy-snapshot-<rendered>` does not match the source regex
`^(?:[a-z](?:[-a-z0-9]{0,61}[a-z0-9])?)$` — 1 to 63 characters, lowercase
alphanumerics and dashes, starting with a lowercase letter and, past the
first character, ending in `[a-z0-9]` (so a trailing dash fails, unlike
under the spec's `^[a-z][-a-z0-9]{0,61}$`); in particular a rendered
timestamp that starts with an uppercase letter fails validation. -/
theorem snapshot_name_validation_iff (td a k : String) :
    (("snapshot_datetime_format" ∈ (validate_config td a k).violations) ↔
      google_snapshot_name_regex_match ("dummy-snapshot-" ++ td) = false) ∧
    (∀ c rest, td.data = c :: rest → isUpperAlpha c = true →
      "snapshot_datetime_format" ∈ (validate_config td a k).violations) := by
  have hmem : ("snapshot_datetime_format" ∈ (validate_config td a k).violations) ↔
      google_snapshot_name_regex_match ("dummy-snapshot-" ++ td) = false := by
    by_cases h1 : google_snapshot_name_regex_match ("dummy-snapshot-" ++ td)
    · by_cases h2 : is_glabel_valid a true
      · simp [validate_config, is_glabel_valid_value, h1, h2]
      · simp [validate_config, is_glabel_valid_value, h1, h2]
    · by_cases h2 : is_glabel_valid a true
      · simp [validate_config, is_glabel_valid_value, h1, h2]
      · simp [validate_config, is_glabel_valid_value, h1, h2]
  refine ⟨hmem, ?_⟩
  intro c rest hdata hupper
  rw [hmem]
  have hcat : ("dummy-snapshot-" ++ td).data =
      'd' :: ("ummy-snapshot-".data ++ (c :: rest)) := by
    rw [String.data_append, hdata]
    rfl
  simp [google_snapshot_name_regex_match, hcat, nameRegexList, List.all_append,
    isNameChar_eq_false_of_upper c hupper]

/-- The fields of a `PersistentVolume` record that `get_disk_identifier`
(google.py lines 94-112) reads: `obj.spec.gcePersistentDisk.pdName` (`none`
models a missing dict key) and the
`failure-domain.beta.kubernetes.io/zone` label (`labels.get` yields `None`
when absent). -/
structure Volume where
  pdName : Option String
  zoneLabel : Option String

/-- The disk identifier of google.py lines 89-91: `{name, zone}`. -/
structure GoogleDiskIdentifier where
  name : String
  zone : String
  deriving DecidableEq

/-- What `get_disk_identifier` can raise: a `KeyError` from the
`volume.obj` dict lookups of line 95, or `UnsupportedVolume` (from
`k8s_snapshots.errors`) with its message, from line 110. -/
inductive DiskResolveError where
  | keyError
  | unsupportedVolume (msg : String)
  deriving DecidableEq

/-- `get_disk_identifier` (google.py lines 94-112): reads `pdName`
(raising `KeyError` when the key path is missing), then the zone label;
`if not gce_disk_zone` fires on both `None` and the empty string and raises
`UnsupportedVolume`; otherwise returns the identifier. -/
def get_disk_identifier (volume : Volume) : Except DiskResolveError GoogleDiskIdentifier :=
  match volume.pdName with
  | none => Except.error DiskResolveError.keyError
  | some gce_disk =>
    match volume.zoneLabel with
    | none => Except.error (DiskResolveError.unsupportedVolume "cannot find the zone of the disk")
    | some zone =>
      if zone = "" then
        Except.error (DiskResolveError.unsupportedVolume "cannot find the zone of the disk")
      else
        Except.ok { name := gce_disk, zone := zone }

/-- C8 is false as stated: for a volume whose zone label is present but the
empty string, `get_disk_identifier` raises `UnsupportedVolume` (the Python
truthiness test `if not gce_disk_zone` also fires on an empty label value)
instead of returning the identifier built from the disk name and that
zone. -/
theorem get_disk_identifier_claim_refuted :
    ¬ (∀ (v : Volume) (n : String), v.pdName = some n →
        (((∃ m, get_disk_identifier v = Except.error (DiskResolveError.unsupportedVolume m)) ↔
            v.zoneLabel = none) ∧
          ∀ z, v.zoneLabel = some z →
            get_disk_identifier v = Except.ok { name := n, zone := z })) := by
  intro h
  have h2 := (h (Volume.mk (some "pd-disk-1") (some "")) "pd-disk-1" rfl).1.mp
    ⟨"cannot find the zone of the disk", rfl⟩
  simp at h2

/-- C8 (amended): provided the disk-name field is present (when it is
absent the dict lookup raises `KeyError` before the zone check is reached),
`get_disk_identifier` raises `UnsupportedVolume` iff the zone label is
absent or the empty string, independently of the other fields; with a
present non-empty zone label it returns the identifier built from the
disk-name field and that zone. -/
theorem get_disk_identifier_zone_spec (v : Volume) :
    (v.pdName = none → get_disk_identifier v = Except.error DiskResolveError.keyError) ∧
    (∀ n, v.pdName = some n →
      (((∃ m, get_disk_identifier v = Except.error (DiskResolveError.unsupportedVolume m)) ↔
          (v.zoneLabel = none ∨ v.zoneLabel = some "")) ∧
        ∀ z, v.zoneLabel = some z → ¬ z = "" →
          get_disk_identifier v = Except.ok { name := n, zone := z })) := by
  obtain ⟨pd, zl⟩ := v
  cases pd with
  | none => simp [get_disk_identifier]
  | some n =>
    cases zl with
    | none => simp [get_disk_identifier]
    | some z =>
      by_cases hz : z = ""
      · simp [get_disk_identifier, hz]
      · simp [get_disk_identifier, hz]

/-- `snapshot_list_filter_expr` (google.py lines 124-127):
`key = list(label_filters.keys())[0]` then `labels.<key> eq <value>`. The
dict is modelled as an association list in insertion order; `none` models
the `IndexError` raised by the subscript on an empty key list. -/
def snapshot_list_filter_expr (label_filters : List (String × String)) : Option String :=
  match label_filters.map Prod.fst with
  | [] => none
  | key :: _ =>
    (label_filters.lookup key).map fun value => "labels." ++ key ++ " eq " ++ value

/-- C9: for a filter map holding exactly one key-value pair the builder
produces exactly `labels.<key> eq <value>`; in particular `labels.env eq
prod` for `env`/`prod`. -/
theorem snapshot_list_filter_expr_singleton :
    (∀ k v : String,
      snapshot_list_filter_expr [(k, v)] = some ("labels." ++ k ++ " eq " ++ v)) ∧
    snapshot_list_filter_expr [("env", "prod")] = some "labels.env eq prod" := by
  constructor
  · intro k v
    simp [snapshot_list_filter_expr, List.lookup]
  · rfl

/-- C10: on the empty filter map the builder produces no filter string — the
subscript `list(label_filters.keys())[0]` raises `IndexError` — while on any
non-empty map it produces one: a partial function whose precondition is a
non-empty map. -/
theorem snapshot_list_filter_expr_empty :
    snapshot_list_filter_expr [] = none ∧
    ∀ l : List (String × String), ¬ l = [] → (snapshot_list_filter_expr l).isSome = true := by
  refine ⟨rfl, ?_⟩
  intro l hl
  match l with
  | [] => exact absurd rfl hl
  | (k, v) :: t => simp [snapshot_list_filter_expr, List.lookup]

end KSnap
